import Mathlib

/-
Verification of the concert-listing scraper (queens.py): a shallow embedding
of its two HTML-handler state machines (BaseParser, TourParser), of the four
regular expressions they use, and of the CSV serialization step, together
with theorems settling the specification claims.

The embedding works at the token level: the streaming HTML tokenizer that
feeds handle_starttag / handle_endtag / handle_data is the external library;
a document is a list of tokens.  Attribute lists are association lists; the
Python dict built from them resolves duplicate keys last-wins.  Python
exceptions (KeyError, TypeError, ValueError, IndexError) are modelled with
Except String.
-/

namespace Queens

/-- Python str.isspace-relevant ASCII whitespace, the characters matched by
the regex class backslash-s on ASCII input. -/
def isWS (c : Char) : Bool :=
  c = ' ' || c = '\t' || c = '\n' || c = '\r' || c = Char.ofNat 11 || c = Char.ofNat 12

/-- Last-wins lookup: the Python dict comprehension over the attribute pairs
keeps the last value for a duplicated key, so lookup searches from the end. -/
def dictGet (attrs : List (String × String)) (k : String) : Option String :=
  (attrs.reverse.find? (fun p => p.1 = k)).map Prod.snd

/-- Case-insensitive literal match at the start: consumes the literal (first
argument) from the input (second argument), comparing characters after
Char.toLower, and returns the remainder; none when the literal is not there. -/
def dropLitCI : List Char → List Char → Option (List Char)
  | [], cs => some cs
  | _ :: _, [] => none
  | l :: ls, c :: cs => if c.toLower = l.toLower then dropLitCI ls cs else none

/-- The regex caret-slash-detail-slash-live-slash-digits-slash (IGNORECASE),
used with re.match: the href starts with "/detail/live/", then one or more
ASCII digits, then "/". -/
def eventUrlMatch (href : String) : Bool :=
  match dropLitCI "/detail/live/".data href.data with
  | none => false
  | some rest =>
    let ds := rest.takeWhile Char.isDigit
    !ds.isEmpty && ((rest.drop ds.length).head? == some '/')

/-- Exactly n decimal digits from the front of the input, with the remainder. -/
def splitDigits : Nat → List Char → Option (List Char × List Char)
  | 0, cs => some ([], cs)
  | _ + 1, [] => none
  | n + 1, c :: cs =>
    if c.isDigit then (splitDigits n cs).map (fun p => (c :: p.1, p.2)) else none

/-- Semantics of the regex tail dot-star-dollar with no MULTILINE/DOTALL:
dot excludes the newline and dollar matches at the end of the string or just
before a trailing newline.  Returns the captured text, none when the input
has an interior newline. -/
def dollarTail (r : List Char) : Option (List Char) :=
  if r.all (fun c => c != '\n') then some r
  else if r.dropLast.all (fun c => c != '\n') && r.getLast? == some '\n' then
    some r.dropLast
  else none

/-- Groups captured by the event-data regex: caret, two digits (day), dot,
two digits (month), dot, four digits (year), whitespace-plus, then the
brief captured by dot-star-dollar. -/
structure DateGroups where
  day : List Char
  month : List Char
  year : List Char
  brief : List Char
deriving Repr, DecidableEq

/-- One literal dot of the pattern. -/
def expectDot : List Char → Option (List Char)
  | c :: cs => if c = '.' then some cs else none
  | [] => none

/-- The regex piece whitespace-plus: at least one whitespace character, and
the greedy run is consumed. -/
def wsTail (cs : List Char) : Option (List Char) :=
  let w := cs.takeWhile isWS
  if w.isEmpty then none else some (cs.drop w.length)

/-- The _eventDataRegex applied with re.search.  The pattern is anchored with
a caret and has no MULTILINE flag, so it can only match at position 0; the
atoms are sequenced in pattern order: two digits (day), a dot, two digits
(month), a dot, four digits (year), whitespace-plus, dot-star-dollar (brief).
The whitespace-plus is greedy; a shorter whitespace run never rescues a
failing dot-star-dollar tail (the tail would still contain the interior
newline that made it fail), so taking the maximal run is faithful. -/
def eventDataMatch (s : String) : Option DateGroups :=
  (splitDigits 2 s.data).bind (fun p1 =>
  (expectDot p1.2).bind (fun r1 =>
  (splitDigits 2 r1).bind (fun p2 =>
  (expectDot p2.2).bind (fun r2 =>
  (splitDigits 4 r2).bind (fun p3 =>
  (wsTail p3.2).bind (fun r3 =>
  (dollarTail r3).map (fun b => ⟨p1.1, p2.1, p3.1, b⟩)))))))

/-- Value of Python int() on a string of decimal digits. -/
def natOfDigits (cs : List Char) : Nat :=
  cs.foldl (fun n c => 10 * n + (c.toNat - 48)) 0

/-- Gregorian leap year, as used by datetime. -/
def isLeap (y : Nat) : Bool :=
  y % 4 == 0 && (y % 100 != 0 || y % 400 == 0)

/-- Days in a month, as used by datetime. -/
def daysInMonth (y m : Nat) : Nat :=
  if m = 2 then (if isLeap y then 29 else 28)
  else if m = 4 || m = 6 || m = 9 || m = 11 then 30
  else 31

/-- The domain of datetime(year, month, day): MINYEAR 1 to MAXYEAR 9999,
month 1 to 12, day 1 to the length of the month.  Outside it the constructor
raises ValueError. -/
def validDate (y m d : Nat) : Bool :=
  1 ≤ y && y ≤ 9999 && 1 ≤ m && m ≤ 12 && 1 ≤ d && d ≤ daysInMonth y m

/-- The _cleanupRegex alternation, anchored at position 0 (IGNORECASE):
literal "Queen on tour:" or literal "Concert:", each followed by
whitespace-plus.  Returns the remainder after the whole match. -/
def cleanupAlt (cs : List Char) : Option (List Char) :=
  match (dropLitCI "Queen on tour:".data cs).bind wsTail with
  | some r => some r
  | none => (dropLitCI "Concert:".data cs).bind wsTail

/-- _cleanupRegex.sub applied to a string: the pattern is anchored with a
caret and no MULTILINE flag, so sub can replace at most the one match at
position 0; elsewhere the string is returned unchanged. -/
def cleanup (s : String) : String :=
  match cleanupAlt s.data with
  | some rest => String.mk rest
  | none => s

/-- The lookahead whitespace-plus-then-open-paren of the details regex.
An open paren is not whitespace, so the only viable split takes the whole
whitespace run, which must be nonempty, and meets an open paren. -/
def wsParen (r : List Char) : Bool :=
  let w := r.takeWhile isWS
  !w.isEmpty && ((r.drop w.length).head? == some '(')

/-- The lazy city alternative dot-star-lazy followed by the lookahead:
shortest newline-free segment after which the lookahead holds.  The
accumulator carries the segment read so far, reversed. -/
def lazyCity : List Char → List Char → Option (List Char)
  | _, [] => none
  | acc, c :: cs =>
    if wsParen (c :: cs) then some acc.reverse
    else if c = '\n' then none
    else lazyCity (c :: acc) cs

/-- The city group: first alternative is the lazy segment with lookahead,
second alternative is dot-star-dollar. -/
def cityMatch (r : List Char) : Option (List Char) :=
  match lazyCity [] r with
  | some c => some c
  | none => dollarTail r

/-- Greedy whitespace-star before the city group, with backtracking: try the
longest prefix of the whitespace run first (drop j characters, j counting
down to 0), and at each length try the city alternation. -/
def wsCityLoop (r : List Char) : Nat → Option (List Char)
  | 0 => cityMatch r
  | j + 1 =>
    match cityMatch (r.drop (j + 1)) with
    | some c => some c
    | none => wsCityLoop r j

/-- The details-regex tail after the comma: whitespace-star then the city. -/
def afterComma (r : List Char) : Option (List Char) :=
  wsCityLoop r (r.takeWhile isWS).length

/-- The details-regex tail after the literal: the venue is one or more
characters other than a comma (greedy, so it runs to the first comma), then
the comma, then the city part.  Returns (venue, city). -/
def detailsTail (cs : List Char) : Option (List Char × List Char) :=
  let v := cs.takeWhile (fun c => c != ',')
  if v.isEmpty then none
  else
    match cs.drop v.length with
    | ',' :: rest => (afterComma rest).map (fun c => (v, c))
    | _ => none

/-- re.search scan for the details regex: try each start position from the
left; at a position the case-insensitive literal " live at the " must match,
then the tail; on failure move one character right. -/
def detailsLoop : List Char → Option (List Char × List Char)
  | [] => none
  | c :: cs =>
    match dropLitCI " live at the ".data (c :: cs) with
    | some r =>
      match detailsTail r with
      | some vc => some vc
      | none => detailsLoop cs
    | none => detailsLoop cs

/-- _detailsRegex.search on a title: some (venue, city) on a match. -/
def detailsMatch (s : String) : Option (String × String) :=
  (detailsLoop s.data).map (fun vc => (String.mk vc.1, String.mk vc.2))

/-- One event of the HTML token stream, as delivered by the tokenizer to the
handler callbacks. -/
inductive Token where
  | startTag (tag : String) (attrs : List (String × String))
  | endTag (tag : String)
  | text (data : String)
deriving Repr, DecidableEq

/-- The exact class-attribute string BaseParser.handle_starttag selects on. -/
def markerClass : String := "list-group-item list-group-item-action"

namespace BaseParser

/-- BaseParser.handle_starttag: on an anchor, build the attribute dict; when
a class attribute is present and equals the marker string, append the href
value to links.  The href subscript is an unguarded dict access, so a
matching anchor without an href raises KeyError. -/
def handle_starttag (links : List String) (tag : String)
    (attrs : List (String × String)) : Except String (List String) :=
  if tag = "a" then
    match dictGet attrs "class" with
    | some c =>
      if c = markerClass then
        match dictGet attrs "href" with
        | some h => .ok (links ++ [h])
        | none => .error "KeyError: href"
      else .ok links
    | none => .ok links
  else .ok links

/-- BaseParser only overrides handle_starttag; end tags and text are inherited
no-ops. -/
def processToken (links : List String) : Token → Except String (List String)
  | .startTag tag attrs => handle_starttag links tag attrs
  | .endTag _ => .ok links
  | .text _ => .ok links

/-- Feeding a token list to BaseParser; an exception aborts the feed. -/
def run : List String → List Token → Except String (List String)
  | links, [] => .ok links
  | links, t :: ts =>
    match processToken links t with
    | .ok l2 => run l2 ts
    | .error e => .error e

end BaseParser

/-- The date stored in an event record, standing for the Python datetime
value datetime(year, month, day). -/
structure Date where
  year : Nat
  month : Nat
  day : Nat
deriving Repr, DecidableEq

/-- One event record appended to TourParser.events. -/
structure Event where
  tourName : String
  eventTitle : String
  eventDate : Date
  eventBrief : String
  eventVenue : String
  eventCity : String
deriving Repr, DecidableEq

/-- The mutable state of a TourParser instance. -/
structure TourState where
  tourName : Option String
  events : List Event
  eventTitle : Option String
  is_h1 : Bool
deriving Repr, DecidableEq

/-- The state set up by TourParser.__init__. -/
def TourState.init : TourState :=
  { tourName := none, events := [], eventTitle := none, is_h1 := false }

/-- Python truthiness of the optional stored title: None and the empty
string are falsy. -/
def truthy : Option String → Bool
  | none => false
  | some s => s != ""

namespace TourParser

/-- TourParser.handle_starttag: a qualifying anchor (href present and
matching the event-url regex) stores the title attribute, an unguarded dict
access that raises KeyError when the title is absent; an h1 sets the
heading flag. -/
def handle_starttag (st : TourState) (tag : String)
    (attrs : List (String × String)) : Except String TourState :=
  if tag = "a" then
    match dictGet attrs "href" with
    | some href =>
      if eventUrlMatch href then
        match dictGet attrs "title" with
        | some t => .ok { st with eventTitle := some t }
        | none => .error "KeyError: title"
      else .ok st
    | none => .ok st
  else if tag = "h1" then .ok { st with is_h1 := true }
  else .ok st

/-- TourParser.handle_endtag: closing an anchor clears the stored title,
closing an h1 clears the heading flag. -/
def handle_endtag (st : TourState) (tag : String) : TourState :=
  if tag = "a" then { st with eventTitle := none }
  else if tag = "h1" then { st with is_h1 := false }
  else st

/-- TourParser.handle_data.  With a truthy stored title: search the data with
the event-data regex and the title with the details regex; on a date match
build the record dict in source order, so cleaning the tour name (TypeError
when it is still None) precedes the datetime construction (ValueError when
the numeric groups are out of range); venue and city fall back to the empty
string when the details regex did not match.  With a falsy stored title and
the heading flag set, the data overwrites the tour name. -/
def handle_data (st : TourState) (data : String) : Except String TourState :=
  match st.eventTitle with
  | some t =>
    if t = "" then
      if st.is_h1 then .ok { st with tourName := some data } else .ok st
    else
      match eventDataMatch data with
      | some g =>
        match st.tourName with
        | none => .error "TypeError: expected string or bytes-like object"
        | some tn =>
          if validDate (natOfDigits g.year) (natOfDigits g.month) (natOfDigits g.day) then
            .ok { st with events := st.events ++ [{
              tourName := cleanup tn
              eventTitle := cleanup t
              eventDate := { year := natOfDigits g.year,
                             month := natOfDigits g.month,
                             day := natOfDigits g.day }
              eventBrief := String.mk g.brief
              eventVenue := ((detailsMatch t).map Prod.fst).getD ""
              eventCity := ((detailsMatch t).map Prod.snd).getD "" }] }
          else .error "ValueError: day is out of range for month"
      | none => .ok st
  | none =>
    if st.is_h1 then .ok { st with tourName := some data } else .ok st

/-- Dispatch of one token to the TourParser callbacks. -/
def processToken (st : TourState) : Token → Except String TourState
  | .startTag tag attrs => handle_starttag st tag attrs
  | .endTag tag => .ok (handle_endtag st tag)
  | .text data => handle_data st data

/-- Feeding a token list to TourParser; an exception aborts the feed. -/
def run : TourState → List Token → Except String TourState
  | st, [] => .ok st
  | st, t :: ts =>
    match processToken st t with
    | .ok st2 => run st2 ts
    | .error e => .error e

end TourParser

/-- Column names of the output file: the keys of the first record dict in
insertion order. -/
def fieldNames : List String :=
  ["Tour Name", "Event Title", "Event Date", "Event Brief", "Event Venue",
   "Event City"]

/-- Observable file operations of the serialization step. -/
inductive FileOp where
  | openW (name : String)
  | writeRow (cells : List String)
deriving Repr, DecidableEq

/-- Left zero padding for the textual date form. -/
def padZ (w n : Nat) : String :=
  String.mk (List.replicate (w - (toString n).length) '0') ++ toString n

/-- Default textual form of the stored datetime value, as the csv writer
renders it. -/
def dateStr (d : Date) : String :=
  padZ 4 d.year ++ "-" ++ padZ 2 d.month ++ "-" ++ padZ 2 d.day ++ " 00:00:00"

/-- One csv row for an event record, values in key order. -/
def rowOf (e : Event) : List String :=
  [e.tourName, e.eventTitle, dateStr e.eventDate, e.eventBrief, e.eventVenue,
   e.eventCity]

/-- The final with-open block: open(events.csv, w) first creates or truncates
the file, then the header is derived from the subscript events[0], which
raises IndexError on an empty list before anything is written; otherwise the
header row and one row per record are written.  Returns the trace of file
operations and the outcome. -/
def writeCsv (events : List Event) : List FileOp × Except String Unit :=
  let opened := [FileOp.openW "events.csv"]
  match events with
  | [] => (opened, .error "IndexError: list index out of range")
  | _ :: _ =>
    (opened ++ FileOp.writeRow fieldNames ::
      events.map (fun e => FileOp.writeRow (rowOf e)), .ok ())

/-- Content of the output file left on disk by a trace: none when the file
was never opened for writing, otherwise the rows written to it (an opened
file with no rows is an existing empty file). -/
def fileRows (ops : List FileOp) : Option (List (List String)) :=
  if ops.contains (FileOp.openW "events.csv") then
    some (ops.filterMap (fun op => match op with
      | .writeRow r => some r
      | _ => none))
  else none

/-- Spec-side description of the Listing Extractor output, written from the
words of the specification: the href values of anchor start-tags whose class
attribute equals the marker string exactly, in document order, duplicates
kept, anchors lacking href or class skipped. -/
def specListedHrefs (doc : List Token) : List String :=
  doc.filterMap (fun t =>
    match t with
    | .startTag tag attrs =>
      if tag = "a" then
        match dictGet attrs "class", dictGet attrs "href" with
        | some c, some h => if c = markerClass then some h else none
        | _, _ => none
      else none
    | _ => none)

/-- Concrete tour page for the date-parsing example: a heading followed by a
qualifying anchor whose text is "31.05.1986 at Wembley Stadium". -/
def c2doc : List Token :=
  [.startTag "h1" [], .text "Magic Tour", .endTag "h1",
   .startTag "a" [("href", "/detail/live/123/wembley.html"),
                  ("title", "Queen live at the Wembley Stadium, London (UK)")],
   .text "31.05.1986 at Wembley Stadium", .endTag "a"]

/-- Concrete tour page for the cleaning example: a prefixed heading and a
qualifying anchor titled "Concert: Queen live at the Forum, Inglewood (USA)". -/
def c3doc : List Token :=
  [.startTag "h1" [], .text "Queen on tour: Magic Tour", .endTag "h1",
   .startTag "a" [("href", "/detail/live/42/forum.html"),
                  ("title", "Concert: Queen live at the Forum, Inglewood (USA)")],
   .text "14.07.1980 first night", .endTag "a"]

/-- Concrete listing page: two anchors with the marker class and the same
href (a duplicate), one anchor with another class, one without class, and a
non-anchor tag. -/
def c4doc : List Token :=
  [.startTag "a" [("class", markerClass), ("href", "/live/a.html")], .text "A",
   .endTag "a",
   .startTag "a" [("class", "other"), ("href", "/live/b.html")],
   .startTag "div" [], .startTag "a" [("href", "/live/c.html")],
   .startTag "a" [("class", markerClass), ("href", "/live/a.html")]]

/-- Concrete tour page with two h1 headings before the first event. -/
def c8doc : List Token :=
  [.startTag "h1" [], .text "First Tour", .endTag "h1",
   .startTag "h1" [], .text "Second Tour", .endTag "h1",
   .startTag "a" [("href", "/detail/live/7/x.html"),
                  ("title", "Queen live somewhere")],
   .text "01.01.1970 opener", .endTag "a"]

/-- A state with an active anchor title that the details regex does not
match, before seeing the date text. -/
def c1state0 : TourState :=
  { tourName := some "Second Tour", events := [],
    eventTitle := some "Queen live somewhere", is_h1 := false }

/-- The state after feeding the text "01.01.1970 opener" to c1state0. -/
def c1state1 : TourState :=
  { tourName := some "Second Tour",
    events := [{ tourName := "Second Tour",
                 eventTitle := "Queen live somewhere",
                 eventDate := { year := 1970, month := 1, day := 1 },
                 eventBrief := "opener", eventVenue := "", eventCity := "" }],
    eventTitle := some "Queen live somewhere", is_h1 := false }

/-- Concrete tour page whose qualifying anchor has an empty title attribute;
its text data matches the date pattern. -/
def c10doc : List Token :=
  [.startTag "h1" [], .text "Tour X", .endTag "h1",
   .startTag "a" [("href", "/detail/live/9/y.html"), ("title", "")],
   .text "31.05.1986 at Wembley Stadium", .endTag "a"]

end Queens

namespace Queens

theorem splitDigits_exact (ds : List Char) (r : List Char)
    (h : ∀ c ∈ ds, c.isDigit = true) :
    splitDigits ds.length (ds ++ r) = some (ds, r) := by
  induction ds with
  | nil => rfl
  | cons c cs ih =>
    have hc : c.isDigit = true := h c (by simp)
    simp [splitDigits, hc, ih (fun x hx => h x (by simp [hx]))]

theorem takeWhile_ws_append (w r : List Char)
    (hw : ∀ c ∈ w, isWS c = true)
    (hr : ∀ c, r.head? = some c → isWS c = false) :
    (w ++ r).takeWhile isWS = w := by
  induction w with
  | nil =>
    cases r with
    | nil => rfl
    | cons c cs => simp [List.takeWhile_cons, hr c rfl]
  | cons c cs ih =>
    simp [List.takeWhile_cons, hw c (by simp),
      ih (fun x hx => hw x (by simp [hx]))]

theorem drop_len_append (w r : List Char) : (w ++ r).drop w.length = r := by
  induction w with
  | nil => rfl
  | cons c cs ih => exact ih

theorem wsTail_append (w r : List Char) (hw : w ≠ [])
    (hws : ∀ c ∈ w, isWS c = true)
    (hr : ∀ c, r.head? = some c → isWS c = false) :
    wsTail (w ++ r) = some r := by
  have htw := takeWhile_ws_append w r hws hr
  have hne : w.isEmpty = false := by
    cases w with
    | nil => exact absurd rfl hw
    | cons c cs => rfl
  rw [wsTail]
  simp [htw, hne, drop_len_append]

theorem dollarTail_clean (r : List Char) (h : ∀ c ∈ r, c ≠ '\n') :
    dollarTail r = some r := by
  have hall : r.all (fun c => c != '\n') = true := by
    rw [List.all_eq_true]
    intro c hc
    simpa using h c hc
  simp [dollarTail, hall]

theorem dropLitCI_self (l r : List Char) : dropLitCI l (l ++ r) = some r := by
  induction l with
  | nil => rfl
  | cons c cs ih => simp [dropLitCI, ih]

theorem someBind {α β : Type} (a : α) (f : α → Option β) :
    (some a).bind f = f a := rfl

theorem someMap {α β : Type} (a : α) (f : α → β) :
    Option.map f (some a) = some (f a) := rfl

theorem expectDot_dot (cs : List Char) : expectDot ('.' :: cs) = some cs := by
  simp [expectDot]

theorem eventDataMatch_build (dd mm yy w r : List Char)
    (hd2 : dd.length = 2) (hdd : ∀ c ∈ dd, c.isDigit = true)
    (hm2 : mm.length = 2) (hmm : ∀ c ∈ mm, c.isDigit = true)
    (hy4 : yy.length = 4) (hyy : ∀ c ∈ yy, c.isDigit = true)
    (hw : w ≠ []) (hws : ∀ c ∈ w, isWS c = true)
    (hr1 : ∀ c, r.head? = some c → isWS c = false)
    (hr2 : ∀ c ∈ r, c ≠ '\n') :
    eventDataMatch (String.mk (dd ++ '.' :: (mm ++ '.' :: (yy ++ (w ++ r)))))
      = some ⟨dd, mm, yy, r⟩ := by
  have h1 := splitDigits_exact dd ('.' :: (mm ++ '.' :: (yy ++ (w ++ r)))) hdd
  rw [hd2] at h1
  have h2 := splitDigits_exact mm ('.' :: (yy ++ (w ++ r))) hmm
  rw [hm2] at h2
  have h3 := splitDigits_exact yy (w ++ r) hyy
  rw [hy4] at h3
  have hwt := wsTail_append w r hw hws hr1
  have hdt := dollarTail_clean r hr2
  have hdata : (String.mk (dd ++ '.' :: (mm ++ '.' :: (yy ++ (w ++ r))))).data
      = dd ++ '.' :: (mm ++ '.' :: (yy ++ (w ++ r))) := rfl
  rw [eventDataMatch, hdata]
  simp only [h1, someBind, expectDot_dot, h2, h3, hwt, hdt, someMap]

theorem noneBind {α β : Type} (f : α → Option β) :
    (none : Option α).bind f = none := rfl

theorem handle_starttag_events (st : TourState) (tag : String)
    (attrs : List (String × String)) (st2 : TourState)
    (h : TourParser.handle_starttag st tag attrs = .ok st2) :
    st2.events = st.events := by
  unfold TourParser.handle_starttag at h
  repeat' split at h
  all_goals first
    | (cases h.symm; rfl)
    | exact (Except.noConfusion h)

theorem base_run_ok (doc : List Token) :
    ∀ (acc links : List String), BaseParser.run acc doc = .ok links →
      links = acc ++ specListedHrefs doc := by
  induction doc with
  | nil =>
    intro acc links h
    simp only [BaseParser.run, Except.ok.injEq] at h
    subst h
    simp [specListedHrefs]
  | cons t ts ih =>
    intro acc links h
    cases t with
    | text d =>
      simp only [BaseParser.run, BaseParser.processToken] at h
      rw [ih acc links h]
      simp [specListedHrefs, List.filterMap_cons]
    | endTag tag =>
      simp only [BaseParser.run, BaseParser.processToken] at h
      rw [ih acc links h]
      simp [specListedHrefs, List.filterMap_cons]
    | startTag tag attrs =>
      by_cases hta : tag = "a"
      · subst hta
        cases hc : dictGet attrs "class" with
        | none =>
          simp only [BaseParser.run, BaseParser.processToken,
            BaseParser.handle_starttag, hc, reduceIte] at h
          rw [ih acc links h]
          simp [specListedHrefs, List.filterMap_cons, hc]
        | some c =>
          by_cases hcm : c = markerClass
          · subst hcm
            cases hh : dictGet attrs "href" with
            | none =>
              simp only [BaseParser.run, BaseParser.processToken,
                BaseParser.handle_starttag, hc, hh, reduceIte] at h
              exact (Except.noConfusion h)
            | some href =>
              simp only [BaseParser.run, BaseParser.processToken,
                BaseParser.handle_starttag, hc, hh, reduceIte] at h
              rw [ih (acc ++ [href]) links h]
              simp [specListedHrefs, List.filterMap_cons, hc, hh]
          · simp only [BaseParser.run, BaseParser.processToken,
              BaseParser.handle_starttag, hc, reduceIte, if_neg hcm] at h
            rw [ih acc links h]
            cases hh : dictGet attrs "href" with
            | none => simp [specListedHrefs, List.filterMap_cons, hc, hh, hcm]
            | some href =>
              simp [specListedHrefs, List.filterMap_cons, hc, hh, hcm]
      · simp only [BaseParser.run, BaseParser.processToken,
          BaseParser.handle_starttag, if_neg hta] at h
        rw [ih acc links h]
        simp [specListedHrefs, List.filterMap_cons, hta]

/-- C1: an event record is appended by a token only when the token is text
data, the stored anchor title is truthy, and the date regex matches that
data; and any appended record whose title the details regex fails to match
has empty-string venue and city fields (the fields are always present in
the record structure). -/
theorem claim_C1 (st : TourState) (tok : Token) (st2 : TourState)
    (h : TourParser.processToken st tok = .ok st2) :
    st2.events = st.events ∨
    ∃ (d : String) (rec : Event),
      tok = .text d ∧ truthy st.eventTitle = true ∧
      (eventDataMatch d).isSome = true ∧
      st2.events = st.events ++ [rec] ∧
      (detailsMatch (st.eventTitle.getD "") = none →
        rec.eventVenue = "" ∧ rec.eventCity = "") := by
  cases tok with
  | startTag tag attrs =>
    exact Or.inl (handle_starttag_events st tag attrs st2 h)
  | endTag tag =>
    simp only [TourParser.processToken, Except.ok.injEq] at h
    subst h
    left
    unfold TourParser.handle_endtag
    repeat' split
    all_goals rfl
  | text d =>
    simp only [TourParser.processToken] at h
    unfold TourParser.handle_data at h
    cases het : st.eventTitle with
    | none =>
      simp only [het] at h
      split at h <;> (rw [Except.ok.injEq] at h; subst h; exact Or.inl rfl)
    | some t =>
      simp only [het] at h
      by_cases hte : t = ""
      · rw [if_pos hte] at h
        split at h <;> (rw [Except.ok.injEq] at h; subst h; exact Or.inl rfl)
      · rw [if_neg hte] at h
        cases hem : eventDataMatch d with
        | none =>
          simp only [hem] at h
          rw [Except.ok.injEq] at h
          subst h
          exact Or.inl rfl
        | some g =>
          simp only [hem] at h
          cases htn : st.tourName with
          | none =>
            simp only [htn] at h
            exact (Except.noConfusion h)
          | some tn =>
            simp only [htn] at h
            split at h
            · rw [Except.ok.injEq] at h
              subst h
              refine Or.inr ⟨d, _, rfl, ?_, ?_, rfl, ?_⟩
              · simp [truthy, het, hte]
              · simp [hem]
              · intro hdm
                simp only [Option.getD_some] at hdm
                simp [hdm]
            · exact (Except.noConfusion h)

/-- C1 witness: instantiating the invariant on a state with an active title
the details regex does not match and the date text that appends a record. -/
theorem claim_C1_witness :
    c1state1.events = c1state0.events ∨
    ∃ (d : String) (rec : Event),
      Token.text "01.01.1970 opener" = .text d ∧
      truthy c1state0.eventTitle = true ∧
      (eventDataMatch d).isSome = true ∧
      c1state1.events = c1state0.events ++ [rec] ∧
      (detailsMatch (c1state0.eventTitle.getD "") = none →
        rec.eventVenue = "" ∧ rec.eventCity = "") :=
  claim_C1 c1state0 (.text "01.01.1970 opener") c1state1 rfl

/-- C4: when feeding a document to the Listing Extractor succeeds, the
collected links are exactly the href values of the anchor start-tags whose
class attribute equals the marker string (exact, case-sensitive comparison),
in document order and with duplicates preserved. -/
theorem claim_C4 (doc : List Token) (links : List String)
    (h : BaseParser.run [] doc = .ok links) :
    links = specListedHrefs doc := by
  simpa using base_run_ok doc [] links h

/-- C4 witness: on the concrete listing page only the two marker-class
anchors contribute, in order, with the duplicate href kept. -/
theorem claim_C4_witness :
    (["/live/a.html", "/live/a.html"] : List String)
      = specListedHrefs c4doc :=
  claim_C4 c4doc _ rfl

/-- C2: text of the form two digits, dot, two digits, dot, four digits,
whitespace, remainder, seen while a truthy anchor title is stored, is parsed
with the first group as the day, the second as the month and the third as
the year of the record date (day.month.year, not month/day), and the
remainder after the whitespace is the brief; in particular the concrete
page whose anchor text is "31.05.1986 at Wembley Stadium" yields the event
with date 1986-05-31 and brief "at Wembley Stadium". -/
theorem claim_C2 :
    (∀ (st : TourState) (t tn : String) (dd mm yy w r : List Char),
      st.eventTitle = some t → t ≠ "" → st.tourName = some tn →
      dd.length = 2 → (∀ c ∈ dd, c.isDigit = true) →
      mm.length = 2 → (∀ c ∈ mm, c.isDigit = true) →
      yy.length = 4 → (∀ c ∈ yy, c.isDigit = true) →
      w ≠ [] → (∀ c ∈ w, isWS c = true) →
      (∀ c, r.head? = some c → isWS c = false) → (∀ c ∈ r, c ≠ '\n') →
      validDate (natOfDigits yy) (natOfDigits mm) (natOfDigits dd) = true →
      TourParser.handle_data st
          (String.mk (dd ++ '.' :: (mm ++ '.' :: (yy ++ (w ++ r)))))
        = .ok { st with events := st.events ++ [{
            tourName := cleanup tn
            eventTitle := cleanup t
            eventDate := { year := natOfDigits yy, month := natOfDigits mm,
                           day := natOfDigits dd }
            eventBrief := String.mk r
            eventVenue := ((detailsMatch t).map Prod.fst).getD ""
            eventCity := ((detailsMatch t).map Prod.snd).getD "" }] })
    ∧ TourParser.run TourState.init c2doc = .ok
      { tourName := some "Magic Tour",
        events := [{ tourName := "Magic Tour",
                     eventTitle := "Queen live at the Wembley Stadium, London (UK)",
                     eventDate := { year := 1986, month := 5, day := 31 },
                     eventBrief := "at Wembley Stadium",
                     eventVenue := "Wembley Stadium",
                     eventCity := "London" }],
        eventTitle := none, is_h1 := false } := by
  constructor
  · intro st t tn dd mm yy w r ht hne htn hd2 hdd hm2 hmm hy4 hyy hw hws
      hr1 hr2 hv
    have hm := eventDataMatch_build dd mm yy w r hd2 hdd hm2 hmm hy4 hyy
      hw hws hr1 hr2
    simp [TourParser.handle_data, ht, hne, htn, hm, hv]
  · rfl

/-- C2 witness: instantiating the date-parsing statement on the Wembley
text with a single space and a truthy title and tour name. -/
theorem claim_C2_witness :
    TourParser.handle_data
      { tourName := some "Magic Tour", events := [],
        eventTitle := some "Queen live at the Wembley Stadium, London (UK)",
        is_h1 := false }
      (String.mk (['3', '1'] ++ '.' :: (['0', '5'] ++ '.' ::
        (['1', '9', '8', '6'] ++ ([' '] ++ "at Wembley Stadium".data)))))
      = .ok { tourName := some "Magic Tour",
              events := [{
                tourName := cleanup "Magic Tour"
                eventTitle := cleanup "Queen live at the Wembley Stadium, London (UK)"
                eventDate := { year := natOfDigits ['1', '9', '8', '6'],
                               month := natOfDigits ['0', '5'],
                               day := natOfDigits ['3', '1'] }
                eventBrief := String.mk "at Wembley Stadium".data
                eventVenue := ((detailsMatch "Queen live at the Wembley Stadium, London (UK)").map Prod.fst).getD ""
                eventCity := ((detailsMatch "Queen live at the Wembley Stadium, London (UK)").map Prod.snd).getD "" }],
              eventTitle := some "Queen live at the Wembley Stadium, London (UK)",
              is_h1 := false } :=
  claim_C2.1
    { tourName := some "Magic Tour", events := [],
      eventTitle := some "Queen live at the Wembley Stadium, London (UK)",
      is_h1 := false }
    "Queen live at the Wembley Stadium, London (UK)" "Magic Tour"
    ['3', '1'] ['0', '5'] ['1', '9', '8', '6'] [' ']
    "at Wembley Stadium".data
    rfl (by decide) rfl rfl (by decide) rfl (by decide) rfl (by decide)
    (by decide) (by decide)
    (by intro c hc; injection hc with h2; subst h2; decide)
    (by decide) (by decide)

/-- C3, counterexample: the cleanup regex consumes the whole greedy run of
whitespace after the keyword, so on a title where the stated prefix
"Concert: " is followed by a further space the code removes more than that
prefix: the rest after the stated prefix would be " Foo", but the code
yields "Foo". -/
theorem claim_C3_counterexample :
    cleanup "Concert:  Foo" = "Foo"
    ∧ "Concert:  Foo" = "Concert: " ++ " Foo"
    ∧ ("Foo" : String) ≠ " Foo" :=
  ⟨rfl, rfl, by decide⟩

/-- C3, amended: cleaning strips at most one leading prefix consisting of
the keyword "Queen on tour:" or "Concert:" (case-insensitive) together with
the whole run of one or more whitespace characters that follows it, leaving
the rest untouched (when a single space follows the keyword this is exactly
the stated prefix); only one leading prefix is stripped; and for the anchor
title "Concert: Queen live at the Forum, Inglewood (USA)" the emitted event
title is "Queen live at the Forum, Inglewood (USA)" with venue "Forum" and
city "Inglewood". -/
theorem claim_C3 :
    (∀ (w r : List Char), w ≠ [] → (∀ c ∈ w, isWS c = true) →
      (∀ c, r.head? = some c → isWS c = false) →
      cleanup (String.mk ("Concert:".data ++ (w ++ r))) = String.mk r
      ∧ cleanup (String.mk ("Queen on tour:".data ++ (w ++ r)))
          = String.mk r)
    ∧ cleanup "Concert: Concert: Foo" = "Concert: Foo"
    ∧ TourParser.run TourState.init c3doc = .ok
      { tourName := some "Queen on tour: Magic Tour",
        events := [{ tourName := "Magic Tour",
                     eventTitle := "Queen live at the Forum, Inglewood (USA)",
                     eventDate := { year := 1980, month := 7, day := 14 },
                     eventBrief := "first night",
                     eventVenue := "Forum",
                     eventCity := "Inglewood" }],
        eventTitle := none, is_h1 := false } := by
  refine ⟨fun w r hw hws hr => ?_, rfl, rfl⟩
  have hwt := wsTail_append w r hw hws hr
  constructor
  · have hq : dropLitCI "Queen on tour:".data
        ("Concert:".data ++ (w ++ r)) = none := by
      have e1 : "Concert:".data ++ (w ++ r)
          = 'C' :: ("oncert:".data ++ (w ++ r)) := rfl
      have e2 : "Queen on tour:".data = 'Q' :: "ueen on tour:".data := rfl
      rw [e1, e2]
      simp only [dropLitCI]
      rw [if_neg (by decide)]
    have hcm := dropLitCI_self "Concert:".data (w ++ r)
    simp only [cleanup, cleanupAlt, hq, noneBind, hcm, someBind, hwt]
  · have hqm := dropLitCI_self "Queen on tour:".data (w ++ r)
    simp only [cleanup, cleanupAlt, hqm, someBind, hwt]

/-- C3 witness: instantiating the cleaning statement with the keyword
"Concert:" followed by a single space. -/
theorem claim_C3_witness :
    cleanup (String.mk ("Concert:".data ++ ([' '] ++ "Foo".data)))
      = String.mk "Foo".data :=
  (claim_C3.1 [' '] "Foo".data (by decide) (by decide)
    (by intro c hc; injection hc with h2; subst h2; decide)).1

/-- C5, counterexample: the claim says an anchor start-tag lacking an
attribute the extractor reads never raises; but a listing anchor whose class
equals the marker and which lacks href raises KeyError, and a tour-page
anchor whose href matches the qualifying pattern and which lacks title
raises KeyError. -/
theorem claim_C5_counterexample :
    BaseParser.handle_starttag [] "a" [("class", markerClass)]
      = .error "KeyError: href"
    ∧ TourParser.handle_starttag TourState.init "a"
        [("href", "/detail/live/1/x.html")] = .error "KeyError: title" :=
  ⟨rfl, rfl⟩

/-- C5, amended: in the Listing Extractor an anchor lacking class is
silently skipped (with or without href), but an anchor whose class equals
the marker string and which lacks href raises KeyError; in the Tour Page
Extractor an anchor lacking href is silently skipped, but an anchor whose
href matches the qualifying pattern and which lacks title raises KeyError. -/
theorem claim_C5 :
    (∀ (links : List String) (h : String),
      BaseParser.handle_starttag links "a" [("href", h)] = .ok links)
    ∧ (∀ (links : List String),
      BaseParser.handle_starttag links "a" [] = .ok links)
    ∧ (∀ (links : List String),
      BaseParser.handle_starttag links "a" [("class", markerClass)]
        = .error "KeyError: href")
    ∧ (∀ (st : TourState) (c : String),
      TourParser.handle_starttag st "a" [("class", c)] = .ok st)
    ∧ (∀ (st : TourState),
      TourParser.handle_starttag st "a" [("href", "/detail/live/1/x.html")]
        = .error "KeyError: title") :=
  ⟨fun _ _ => rfl, fun _ => rfl, fun _ => rfl, fun _ _ => rfl, fun _ => rfl⟩

/-- C7, counterexample: with zero accumulated events the serialization step
does fail with IndexError during header derivation, but the claim also says
no empty output file is written; the trace shows the open call has already
created the output file and no row is ever written to it, so an empty
events.csv is left on disk. -/
theorem claim_C7_counterexample :
    (writeCsv []).2 = .error "IndexError: list index out of range"
    ∧ fileRows (writeCsv []).1 = some [] :=
  ⟨rfl, rfl⟩

/-- C7, amended: with zero accumulated events, serialization fails
deterministically with an index-out-of-range error during header derivation
from the first record and writes no header and no rows; the output file has
however already been created (empty) by the open call. -/
theorem claim_C7 :
    writeCsv [] = ([FileOp.openW "events.csv"],
      .error "IndexError: list index out of range")
    ∧ fileRows [FileOp.openW "events.csv"] = some [] :=
  ⟨rfl, rfl⟩

/-- C6: when the date regex matches but the numeric groups are not a valid
calendar date, handle_data raises ValueError (given a truthy title and a
present tour name, whose cleaning is evaluated first); the record is not
appended and the whole feed aborts with the error, with no skip-and-continue
recovery for the remaining tokens. -/
theorem claim_C6 (st : TourState) (t tn data : String) (g : DateGroups)
    (ht : st.eventTitle = some t) (hne : t ≠ "")
    (htn : st.tourName = some tn)
    (hm : eventDataMatch data = some g)
    (hv : validDate (natOfDigits g.year) (natOfDigits g.month)
        (natOfDigits g.day) = false) :
    TourParser.handle_data st data
      = .error "ValueError: day is out of range for month"
    ∧ ∀ (rest : List Token), TourParser.run st (.text data :: rest)
      = .error "ValueError: day is out of range for month" := by
  have hd : TourParser.handle_data st data
      = .error "ValueError: day is out of range for month" := by
    simp [TourParser.handle_data, ht, hne, htn, hm, hv]
  exact ⟨hd, fun rest => by
    simp [TourParser.run, TourParser.processToken, hd]⟩

/-- C6 witness: a date pattern with day 32 aborts with ValueError. -/
theorem claim_C6_witness :
    TourParser.handle_data
      { tourName := some "T", events := [], eventTitle := some "E",
        is_h1 := false } "32.01.1986 x"
      = .error "ValueError: day is out of range for month" :=
  (claim_C6 _ "E" "T" "32.01.1986 x"
    ⟨['3', '2'], ['0', '1'], ['1', '9', '8', '6'], ['x']⟩
    rfl (by decide) rfl rfl (by decide)).1

/-- C8: text data observed with the heading flag set and no truthy event
title overwrites the tour name entirely; on the concrete page with two h1
headings before any event, the second heading text is the tour name of the
emitted record (last-write-wins). -/
theorem claim_C8 :
    (∀ (st : TourState) (d : String), truthy st.eventTitle = false →
      st.is_h1 = true →
      TourParser.handle_data st d = .ok { st with tourName := some d })
    ∧ TourParser.run TourState.init c8doc = .ok
      { tourName := some "Second Tour",
        events := [{ tourName := "Second Tour",
                     eventTitle := "Queen live somewhere",
                     eventDate := { year := 1970, month := 1, day := 1 },
                     eventBrief := "opener", eventVenue := "",
                     eventCity := "" }],
        eventTitle := none, is_h1 := false } := by
  constructor
  · intro st d hf h1
    cases het : st.eventTitle with
    | none => simp [TourParser.handle_data, het, h1]
    | some t =>
      have ht : t = "" := by
        rw [het] at hf
        simpa [truthy] using hf
      simp [TourParser.handle_data, het, ht, h1]
  · rfl

/-- C8 witness: in a heading with no active title, data replaces the tour
name. -/
theorem claim_C8_witness :
    TourParser.handle_data
      { tourName := some "Old", events := [], eventTitle := none,
        is_h1 := true } "New"
      = .ok { tourName := some "New", events := [], eventTitle := none,
              is_h1 := true } :=
  claim_C8.1 _ "New" rfl rfl

/-- C9: with a truthy title, a matching date pattern and the tour name still
at its initial None, appending the record raises TypeError (the cleanup
substitution is applied to the absent tour name); and whenever handle_data
returns normally having appended anything, the tour name was present, i.e.
some heading text had been observed earlier in the instance lifetime. -/
theorem claim_C9 :
    (∀ (st : TourState) (t data : String) (g : DateGroups),
      st.eventTitle = some t → t ≠ "" → st.tourName = none →
      eventDataMatch data = some g →
      TourParser.handle_data st data
        = .error "TypeError: expected string or bytes-like object")
    ∧ (∀ (st st2 : TourState) (data : String),
      TourParser.handle_data st data = .ok st2 → st2.events ≠ st.events →
      st.tourName ≠ none) := by
  constructor
  · intro st t data g ht hne htn hm
    simp [TourParser.handle_data, ht, hne, htn, hm]
  · intro st st2 data h hne
    unfold TourParser.handle_data at h
    cases het : st.eventTitle with
    | none =>
      simp only [het] at h
      split at h <;> (cases h; exact absurd rfl hne)
    | some t =>
      simp only [het] at h
      by_cases hte : t = ""
      · rw [if_pos hte] at h
        split at h <;> (cases h; exact absurd rfl hne)
      · rw [if_neg hte] at h
        cases hem : eventDataMatch data with
        | none =>
          simp only [hem] at h
          cases h
          exact absurd rfl hne
        | some g =>
          simp only [hem] at h
          cases htn : st.tourName with
          | none =>
            simp only [htn] at h
            exact (Except.noConfusion h)
          | some tn => simp [htn]

/-- C9 witness: a fresh-style state with an active title but no tour name
errors on a matching date. -/
theorem claim_C9_witness :
    TourParser.handle_data
      { tourName := none, events := [], eventTitle := some "E",
        is_h1 := false } "31.05.1986 x"
      = .error "TypeError: expected string or bytes-like object" :=
  claim_C9.1 _ "E" "31.05.1986 x"
    ⟨['3', '1'], ['0', '5'], ['1', '9', '8', '6'], ['x']⟩
    rfl (by decide) rfl rfl

/-- C10: a qualifying anchor with an empty title attribute stores the empty
string, which is falsy: no record is ever emitted from text inside it (even
when the date pattern matches, as in the concrete page), and with the
heading flag set such text still overwrites the tour name. -/
theorem claim_C10 :
    (∀ (st : TourState),
      TourParser.handle_starttag st "a"
        [("href", "/detail/live/9/y.html"), ("title", "")]
        = .ok { st with eventTitle := some "" })
    ∧ (∀ (st : TourState) (d : String), st.eventTitle = some "" →
      st.is_h1 = false → TourParser.handle_data st d = .ok st)
    ∧ (∀ (st : TourState) (d : String), st.eventTitle = some "" →
      st.is_h1 = true →
      TourParser.handle_data st d = .ok { st with tourName := some d })
    ∧ TourParser.run TourState.init c10doc = .ok
      { tourName := some "Tour X", events := [], eventTitle := none,
        is_h1 := false } := by
  refine ⟨fun st => rfl, fun st d he hh => ?_, fun st d he hh => ?_, rfl⟩
  · simp [TourParser.handle_data, he, hh]
  · simp [TourParser.handle_data, he, hh]

/-- C10 witness: with an empty stored title and the heading flag set, data
overwrites the tour name and no record is appended. -/
theorem claim_C10_witness :
    TourParser.handle_data
      { tourName := some "T", events := [], eventTitle := some "",
        is_h1 := true } "New"
      = .ok { tourName := some "New", events := [], eventTitle := some "",
              is_h1 := true } :=
  claim_C10.2.2.1 _ "New" rfl rfl

end Queens
